import Mathlib

/-!
Shallow embedding of the proclynx interactive session engine (src/src/main.rs):
the input-mode state machine, the command dispatcher inside run_app, and the
scrollback paging mechanism, together with the pure rendering helpers
(get_disks_information, printptable, desc, ...). OS-facing calls from the
sysinfo / psutil / nix crates are modelled by a Facade record holding one
snapshot of what those calls would return; fallible calls are Option-valued
(none corresponds to an unwrap panic in the source). Rust u64 / u32 values are
Nat, i32 values are Int; f32 readings are only ever displayed, so they are
kept as their rendered strings.
-/

namespace Proclynx

/-- Pad a string on the right with spaces to width w, as the Rust format
specifier with left alignment and a minimum width does. -/
def pad (w : Nat) (s : String) : String :=
  s ++ String.mk (List.replicate (w - s.length) ' ')

/-- Four left-aligned columns of width 30 separated by single spaces, the row
format used by printptable, desc and find. -/
def row4 (a b c d : String) : String :=
  pad 30 a ++ " " ++ pad 30 b ++ " " ++ pad 30 c ++ " " ++ pad 30 d

/-- Four left-aligned columns of width 50, the row format of get_cpu_information. -/
def row4w (a b c d : String) : String :=
  pad 50 a ++ " " ++ pad 50 b ++ " " ++ pad 50 c ++ " " ++ pad 50 d

/-- Six left-aligned columns of width 50, the row format of get_disks_information. -/
def row6 (a b c d e f : String) : String :=
  pad 50 a ++ " " ++ pad 50 b ++ " " ++ pad 50 c ++ " " ++ pad 50 d ++ " " ++
    pad 50 e ++ " " ++ pad 50 f

/-- Accumulator-based worker for splitWhitespace; acc holds the reversed
characters of the token currently being read. -/
def splitWSAux : List Char → List Char → List String
  | [], acc => if acc = [] then [] else [String.mk acc.reverse]
  | c :: cs, acc =>
    if c.isWhitespace then
      if acc = [] then splitWSAux cs []
      else String.mk acc.reverse :: splitWSAux cs []
    else splitWSAux cs (c :: acc)

/-- Rust split_whitespace: split on whitespace, dropping empty pieces. -/
def splitWhitespace (s : String) : List String :=
  splitWSAux s.toList []

/-- Remove the last character, as Rust String::pop does (no-op when empty). -/
def strPop (s : String) : String :=
  String.mk s.toList.dropLast

/-- Drop the first character, modelling the byte slice from index 1 applied to
the second token of df / hddtemp / gputemp (tokens are ASCII here, so byte
index 1 is character index 1). -/
def strDrop1 (s : String) : String :=
  String.mk (s.toList.drop 1)

/-- Whether the first list is a prefix of the second, by characters. -/
def isPrefixList : List Char → List Char → Bool
  | [], _ => true
  | _ :: _, [] => false
  | a :: as, b :: bs => a = b && isPrefixList as bs

/-- Helper for substring search: does needle occur starting at any position. -/
def containsAux (needle : List Char) : List Char → Bool
  | [] => isPrefixList needle []
  | b :: bs => isPrefixList needle (b :: bs) || containsAux needle bs

/-- Rust str::contains as substring containment on characters. -/
def strContains (hay needle : String) : Bool :=
  containsAux needle.toList hay.toList

/-- Accumulate decimal digits; none on the first non-digit character. -/
def digitsValAux : List Char → Nat → Option Nat
  | [], acc => some acc
  | c :: cs, acc =>
    if c.isDigit then digitsValAux cs (acc * 10 + (c.toNat - 48)) else none

/-- Value of a non-empty all-digit character list. -/
def digitsVal (l : List Char) : Option Nat :=
  match l with
  | [] => none
  | _ => digitsValAux l 0

/-- Rust str::parse to i32: optional sign, decimal digits, i32 range check. -/
def parseI32 (str : String) : Option Int :=
  match str.toList with
  | '+' :: rest =>
    (digitsVal rest).bind (fun n => if n ≤ 2147483647 then some (n : Int) else none)
  | '-' :: rest =>
    (digitsVal rest).bind (fun n => if n ≤ 2147483648 then some (-(n : Int)) else none)
  | l =>
    (digitsVal l).bind (fun n => if n ≤ 2147483647 then some (n : Int) else none)

/-- Rust Debug formatting of a plain string value: surrounding double quotes
(escaping inside the name is not needed for the process names considered). -/
def quoteDebug (s : String) : String :=
  "\"" ++ s ++ "\""

/-- One hardware sensor component of the sysinfo crate. The f32 readings are
kept as their rendered text; debugRepr is the Debug rendering of the whole
component used by the sensors command; critical is none when the crate
reports no critical threshold (then hddtemp crit panics on unwrap). -/
structure Component where
  label : String
  temperature : String
  maxTemp : String
  critical : Option String
  debugRepr : String
deriving DecidableEq

/-- One disk of the sysinfo crate; spaces are u64 byte counts. -/
structure Disk where
  name : String
  mountPoint : String
  fileSystem : String
  totalSpace : Nat
  availableSpace : Nat
deriving DecidableEq

/-- One logical CPU of the sysinfo crate. -/
structure Cpu where
  brand : String
  vendorId : String
  name : String
  frequency : Nat
deriving DecidableEq

/-- One OS process as psutil reports it. cmdline mirrors the nested
Result-Option of the crate: none is the Err case (a later unwrap panics),
some none is Ok(None) (kernel thread, skipped by the table builders),
some (some c) is Ok(Some c). cpuPercent and memPercent are the rendered
f32 readings. -/
structure Proc where
  pid : Int
  name : String
  cmdline : Option (Option String)
  cpuPercent : String
  memPercent : String
deriving DecidableEq

/-- Snapshot of every OS-facing call the program makes: the sysinfo and
psutil queries, the nix signal send (killResult pid is none on success and
some rendered-errno on failure), process spawning (spawnOk), and the
pretty_bytes conversion used by the memory command. Option-valued identity
queries model the Err and None cases that the source unwraps. -/
structure Facade where
  sysName : Option String
  kernelVersion : Option String
  osVersion : Option String
  hostName : Option String
  components : List Component
  disks : List Disk
  cpus : List Cpu
  networks : List (String × Nat × Nat)
  totalMemory : Nat
  usedMemory : Nat
  freeMemory : Nat
  processes : List Proc
  spawnOk : String → Bool
  killResult : Int → Option String
  memConvert : Nat → String

/-- get_system_information: four labelled identity lines; none when one of
the four unwraps would panic. -/
def get_system_information (sys : Facade) : Option (List String) := do
  let n ← sys.sysName
  let k ← sys.kernelVersion
  let o ← sys.osVersion
  let h ← sys.hostName
  pure ["Name: " ++ n, "Kernel version: " ++ k, "OS version: " ++ o,
        "Host name: " ++ h]

/-- get_components_information: Debug rendering of every sensor component. -/
def get_components_information (sys : Facade) : List String :=
  sys.components.map (fun c => c.debugRepr)

/-- Filter of the hddtemp command: label contains SSD or HDD. -/
def hddFilter (c : Component) : Bool :=
  strContains c.label "SSD" || strContains c.label "HDD"

/-- get_hddtemp: temperature lines of the SSD/HDD components, selected by the
stored arg; the crit branch unwraps the critical threshold, so a filtered
component without one makes the whole call panic (none). -/
def get_hddtemp (sys : Facade) (arg : String) : Option (List String) :=
  if arg = "" then
    some ((sys.components.filter hddFilter).map
      (fun c => c.label ++ ": " ++ c.temperature ++ "°C"))
  else if arg = "max" then
    some ((sys.components.filter hddFilter).map
      (fun c => c.label ++ ": " ++ c.maxTemp ++ "°C"))
  else if arg = "crit" then
    (sys.components.filter hddFilter).mapM
      (fun c => (c.critical).map (fun v => c.label ++ ": " ++ v ++ "°C"))
  else some []

/-- Header line of get_disks_information. -/
def diskHeader : String :=
  row6 "Name" "Mount Point" "Filesystem" "Total Space" "Available Space" "Used Space"

/-- One data line of get_disks_information, from already scaled values. -/
def diskLine (nm mp fs : String) (tot avail used : Nat) : String :=
  row6 nm mp fs (toString tot) (toString avail) (toString used)

/-- get_disks_information: header plus one line per disk, total and available
space divided by 2 to the power selected by arg (empty selects 0, k selects
10, m selects 20, anything else leaves the initial 0); used space is the
difference of the two scaled values. -/
def get_disks_information (sys : Facade) (arg : String) : List String :=
  let power : Nat := if arg = "k" then 10 else if arg = "m" then 20 else 0
  diskHeader :: sys.disks.map (fun d =>
    diskLine d.name d.mountPoint d.fileSystem
      (d.totalSpace / 2 ^ power) (d.availableSpace / 2 ^ power)
      (d.totalSpace / 2 ^ power - d.availableSpace / 2 ^ power))

/-- get_cpu_information: header plus one line per logical CPU. -/
def get_cpu_information (sys : Facade) : List String :=
  row4w "Brand" "Vendor ID" "Name" "Frequency" ::
    sys.cpus.map (fun c => row4w c.brand c.vendorId c.name (toString c.frequency))

/-- get_gputemp: temperature lines of the components whose label contains
gpu; an unrecognized stored arg yields no lines. -/
def get_gputemp (sys : Facade) (arg : String) : List String :=
  if arg = "" then
    (sys.components.filter (fun c => strContains c.label "gpu")).map
      (fun c => c.label ++ ": " ++ c.temperature ++ "°C")
  else if arg = "max" then
    (sys.components.filter (fun c => strContains c.label "gpu")).map
      (fun c => c.label ++ ": " ++ c.maxTemp ++ "°C")
  else []

/-- The process-table row selector: every process except those whose cmdline
is Ok(None) (the Err case also falls into the catch-all arm of the source). -/
def hasCmdline (p : Proc) : Bool :=
  p.cmdline ≠ some none

/-- Header line shared by printptable, desc and find. -/
def ptableHeader : String :=
  row4 "PID" "%CPU" "%MEM" "COMMAND"

/-- One process-table data row (pid, cpu percent, mem percent, name). -/
def procRow (p : Proc) : String :=
  row4 (toString p.pid) p.cpuPercent p.memPercent p.name

/-- printptable: the output lines (header plus data rows) together with the
row counter num that the source returns. -/
def printptable (sys : Facade) : List String × Int :=
  let rows := (sys.processes.filter hasCmdline).map procRow
  (ptableHeader :: rows, (rows.length : Int))

/-- desc: the process list reversed; note the source pushes the header twice. -/
def descOut (sys : Facade) : List String :=
  ptableHeader :: ptableHeader ::
    ((sys.processes.reverse.filter hasCmdline).map procRow)

/-- kill_by_pid: the signal-send result rendered as a single line; both the
success and the failure case are caught and rendered. -/
def kill_by_pid (sys : Facade) (pid : Int) : List String :=
  match sys.killResult pid with
  | none => ["Process with killed successfully.\n"]
  | some e => ["Error killing process: " ++ e ++ "\n"]

/-- kill_by_name: one result line per process whose name matches exactly
(among processes with a cmdline). -/
def kill_by_name (sys : Facade) (name : String) : List String :=
  (sys.processes.filter (fun p => hasCmdline p && name = p.name)).map (fun p =>
    match sys.killResult p.pid with
    | none => "Process with killed successfully.\n"
    | some e => "Error killing process: " ++ e ++ "\n")

/-- The find command: looks the pid up (findbypid); when found it prints the
found line, the header, and one data row whose last column is the cmdline
text; an Err cmdline makes the inner unwrap panic (none); when not found it
prints a single not-found line. -/
def findOut (sys : Facade) (pid : Int) : Option (List String) :=
  match sys.processes.find? (fun p => p.pid = pid) with
  | some p =>
    let line1 := "Process with PID " ++ toString pid ++ " found!: " ++ quoteDebug p.name
    match p.cmdline with
    | some none => some [line1, ptableHeader]
    | some (some c) =>
      some [line1, ptableHeader,
            row4 (toString p.pid) p.cpuPercent p.memPercent c]
    | none => none
  | none => some ["Process not found with PID " ++ toString pid]

/-- networkuti: one line per network interface with cumulative packet counts. -/
def networkuti (sys : Facade) : List String :=
  sys.networks.map (fun n =>
    "Interface " ++ n.1 ++ ": transmitted: " ++ toString n.2.1 ++
      ", received: " ++ toString n.2.2)

/-- memutil: the three memory lines through the pretty_bytes conversion. -/
def memutil (sys : Facade) : List String :=
  ["Total Memory: " ++ sys.memConvert sys.totalMemory,
   "Used Memory: " ++ sys.memConvert sys.usedMemory,
   "Free Memory: " ++ sys.memConvert sys.freeMemory]

/-- The 19 lines the help command pushes, verbatim from the source. -/
def helpLines : List String :=
  ["COMMANDS .\n",
   "find (pid) --> retrievs the info of process with (pid)",
   "ignite --> start new process",
   "ptable --> prints proces table",
   "desc --> sort process table descendingly",
   "sysinfo --> retrieves system info",
   "kill (pid/name)--> kill process with (pid/name)",
   "uname --> prints the kernel version",
   "uname --> prints the kernel version",
   "release --> prints the OS version",
   "release --> prints the OS version",
   "hostname --> prints the hostname",
   "sensors --> prints the labels of various components with their associated temperatures",
   "df --> prints the disk filesystem information",
   "hddtemp --> prints the temperature of the internal HDD/SSD",
   "lscpu --> lists the processor information",
   "gputemp --> prints the temperature of the GPU",
   "network --> prints information pertaining to network utilization",
   "memory --> prints information pertaining to memory utilization"]

/-- The two input modes of the source enum. -/
inductive InputMode where
  | Normal
  | Editing
deriving DecidableEq

/-- App holds the state of the application: the input box, the input mode,
the append-only message log and the output lines. -/
structure App where
  input : String
  input_mode : InputMode
  messages : List String
  output : List String
deriving DecidableEq

/-- The whole mutable state of run_app: the App plus the locals flag
(scroll_enabled), num (total_rows, an i32), arg (the shared optional
argument) and history (the scrollback store). -/
structure LoopState where
  app : App
  flag : Bool
  num : Int
  arg : String
  history : List String
deriving DecidableEq

/-- The key codes the source distinguishes; other is every other key. -/
inductive KeyCode where
  | char (c : Char)
  | down
  | up
  | enter
  | backspace
  | esc
  | other
deriving DecidableEq

/-- Outcome of handling one key event: the next state, normal termination
(return from run_app on q), an io::Error propagated by the question-mark
operator (ignite spawn failure), or a panic (unwrap or an out-of-bounds
index). -/
inductive StepOut where
  | next (s : LoopState)
  | exited
  | errored
  | panicked
deriving DecidableEq

/-- The Down arm of the Editing match: when flag is set and output is
non-empty, the bound num minus 45 is converted from i32 to usize (panicking
when negative); when the history length is within the bound, the line at
index 1 of output (the first data row, the header at index 0 is never
evicted) moves to the end of history; removing index 1 from a singleton
output would also panic. -/
def pageDown (s : LoopState) : StepOut :=
  if s.flag then
    if s.app.output.isEmpty then .next s
    else if s.num - 45 < 0 then .panicked
    else if s.history.length ≤ (s.num - 45).toNat then
      match s.app.output with
      | h :: x :: rest =>
        .next { s with app := { s.app with output := h :: rest },
                       history := s.history ++ [x] }
      | _ => .panicked
    else .next s
  else .next s

/-- The Up arm of the Editing match: when flag is set and history is
non-empty, its last line is reinserted at index 1 of output; inserting at
index 1 of an empty output would panic. -/
def pageUp (s : LoopState) : StepOut :=
  if s.flag then
    match s.history.getLast? with
    | none => .next s
    | some v =>
      match s.app.output with
      | [] => .panicked
      | h :: rest =>
        .next { s with app := { s.app with output := h :: v :: rest },
                       history := s.history.dropLast }
  else .next s

/-- The Enter arm of the Editing match: tokenize the input, clear output,
append the raw input line to messages and empty the input box, then match
the first token (indexing it panics when the line has no token) against the
fixed command table; app0 is the state of the App right before the command
table is consulted. -/
def dispatch (sys : Facade) (s : LoopState) : StepOut :=
  let parts := splitWhitespace s.app.input
  let app0 : App :=
    { input := "", input_mode := s.app.input_mode,
      messages := s.app.messages ++ [s.app.input], output := [] }
  match parts with
  | [] => .panicked
  | cmd :: _ =>
    if cmd = "uname" then
      match sys.kernelVersion with
      | none => .panicked
      | some v => .next { s with app := { app0 with output := [v] }, flag := false }
    else if cmd = "release" then
      match sys.osVersion with
      | none => .panicked
      | some v => .next { s with app := { app0 with output := [v] }, flag := false }
    else if cmd = "hostname" then
      match sys.hostName with
      | none => .panicked
      | some v => .next { s with app := { app0 with output := [v] }, flag := false }
    else if cmd = "sysinfo" then
      match get_system_information sys with
      | none => .panicked
      | some v => .next { s with app := { app0 with output := v }, flag := false }
    else if cmd = "sensors" then
      .next { s with app := { app0 with output := get_components_information sys },
                     flag := false }
    else if cmd = "df" then
      let a := if parts.length = 2 then strDrop1 (parts.getD 1 "") else s.arg
      .next { s with app := { app0 with output := get_disks_information sys a },
                     flag := false, arg := a }
    else if cmd = "hddtemp" then
      let a := if parts.length = 2 then strDrop1 (parts.getD 1 "") else s.arg
      match get_hddtemp sys a with
      | none => .panicked
      | some v => .next { s with app := { app0 with output := v },
                                 flag := false, arg := a }
    else if cmd = "lscpu" then
      .next { s with app := { app0 with output := get_cpu_information sys },
                     flag := false }
    else if cmd = "gputemp" then
      let a := if parts.length = 2 then strDrop1 (parts.getD 1 "") else s.arg
      .next { s with app := { app0 with output := get_gputemp sys a },
                     flag := false, arg := a }
    else if cmd = "kill" then
      if parts.length = 2 then
        match parseI32 (parts.getD 1 "") with
        | some pid =>
          .next { s with app := { app0 with output := kill_by_pid sys pid },
                         flag := false }
        | none =>
          .next { s with app := { app0 with output := kill_by_name sys (parts.getD 1 "") },
                         flag := false }
      else .next { s with app := app0, flag := false }
    else if cmd = "ignite" then
      if parts.length = 2 then
        if sys.spawnOk (parts.getD 1 "") then .next { s with app := app0, flag := false }
        else .errored
      else .next { s with app := app0, flag := false }
    else if cmd = "ptable" then
      .next { s with app := { app0 with output := (printptable sys).1 },
                     flag := true, num := (printptable sys).2 }
    else if cmd = "clear" then
      .next { s with app := app0, flag := false }
    else if cmd = "help" then
      .next { s with app := { app0 with output := helpLines } }
    else if cmd = "find" then
      if parts.length = 2 then
        match parseI32 (parts.getD 1 "") with
        | none => .panicked
        | some pid =>
          match findOut sys pid with
          | none => .panicked
          | some v => .next { s with app := { app0 with output := v } }
      else .next { s with app := app0 }
    else if cmd = "network" then
      .next { s with app := { app0 with output := networkuti sys } }
    else if cmd = "memory" then
      .next { s with app := { app0 with output := memutil sys } }
    else if cmd = "desc" then
      .next { s with app := { app0 with output := descOut sys } }
    else
      .next { s with app := { app0 with output := ["command not found"] } }

/-- The names present in the dispatch match; any other first token falls to
the command-not-found arm. -/
def commandNames : List String :=
  ["uname", "release", "hostname", "sysinfo", "sensors", "df", "hddtemp",
   "lscpu", "gputemp", "kill", "ignite", "ptable", "clear", "help", "find",
   "network", "memory", "desc"]

/-- Handling of one key event by the loop body of run_app: in Normal mode
only e/E (enter Editing) and q/Q (terminate) act; in Editing mode Down and
Up drive the scrollback, Enter dispatches, characters and Backspace edit the
input box, Esc returns to Normal. -/
def step (sys : Facade) (s : LoopState) (k : KeyCode) : StepOut :=
  match s.app.input_mode with
  | .Normal =>
    match k with
    | .char c =>
      if c = 'e' || c = 'E' then
        .next { s with app := { s.app with input_mode := .Editing } }
      else if c = 'q' || c = 'Q' then .exited
      else .next s
    | _ => .next s
  | .Editing =>
    match k with
    | .down => pageDown s
    | .up => pageUp s
    | .enter => dispatch sys s
    | .char c => .next { s with app := { s.app with input := s.app.input.push c } }
    | .backspace => .next { s with app := { s.app with input := strPop s.app.input } }
    | .esc => .next { s with app := { s.app with input_mode := .Normal } }
    | .other => .next s

/-- Iterate step over a list of key events, stopping at the first outcome
that is not a next state. -/
def run (sys : Facade) (s : LoopState) : List KeyCode → StepOut
  | [] => .next s
  | k :: ks =>
    match step sys s k with
    | .next s1 => run sys s1 ks
    | r => r

/-- The state run_app starts from: empty containers, Normal mode, flag
false, num 0, empty arg. -/
def initState : LoopState :=
  { app := { input := "", input_mode := .Normal, messages := [], output := [] },
    flag := false, num := 0, arg := "", history := [] }

/-- Key events that type the characters of a string. -/
def keysOf (s : String) : List KeyCode :=
  s.toList.map KeyCode.char

/-- A state in Editing mode composing the given input line, otherwise fresh. -/
def editingState (inp : String) : LoopState :=
  { app := { input := inp, input_mode := .Editing, messages := [], output := [] },
    flag := false, num := 0, arg := "", history := [] }

/-- A benign facade snapshot used as a concrete test fixture: identity
queries succeed, one disk of exactly one MiB with nothing available, one
process with a cmdline, spawning succeeds, signalling succeeds. -/
def fac0 : Facade :=
  { sysName := some "n", kernelVersion := some "kv", osVersion := some "ov",
    hostName := some "hn", components := [], disks := [⟨"d", "/", "ext4", 1048576, 0⟩],
    cpus := [], networks := [], totalMemory := 0, usedMemory := 0, freeMemory := 0,
    processes := [⟨1, "a", some (some "a"), "0", "0"⟩],
    spawnOk := fun _ => true, killResult := fun _ => none,
    memConvert := fun n => toString n }

/-- A facade snapshot on which OS-facing calls fail: the kernel-version
query returns nothing, spawning fails, signalling fails with EPERM. -/
def facBad : Facade :=
  { sysName := none, kernelVersion := none, osVersion := none,
    hostName := none, components := [], disks := [], cpus := [], networks := [],
    totalMemory := 0, usedMemory := 0, freeMemory := 0, processes := [],
    spawnOk := fun _ => false, killResult := fun _ => some "EPERM",
    memConvert := fun n => toString n }

/-- Claim C1: the spec requires an empty (or whitespace-only) submitted line
to be a no-op dispatch that leaves output empty and never crashes. The code
instead indexes the first element of an empty token vector, which panics:
dispatching the empty line and the all-blank line both end in a panic. -/
theorem empty_line_dispatch_panics :
    step fac0 (editingState "") .enter = .panicked ∧
    step fac0 (editingState "   ") .enter = .panicked := by
  decide

/-- Claim C2: the spec requires System Facade failures to be caught at the
dispatcher boundary and rendered as an error line. In the code a failed
ignite spawn propagates out of run_app through the question-mark operator
(ending the session), and a missing kernel version makes uname panic on
unwrap; only the signal-send failure of kill is actually caught and
rendered as an error line. -/
theorem facade_failure_aborts_session :
    step facBad (editingState "ignite prog") .enter = .errored ∧
    step facBad (editingState "uname") .enter = .panicked ∧
    step facBad (editingState "kill 7") .enter = .next
      { app := { input := "", input_mode := .Editing, messages := ["kill 7"],
                 output := ["Error killing process: EPERM\n"] },
        flag := false, num := 0, arg := "", history := [] } := by
  decide

/-- A reachable paging state after a ptable with zero data rows: scroll is
enabled, output holds only the header, history is empty, num is 0. -/
def sSmall : LoopState :=
  { app := { input := "", input_mode := .Editing, messages := ["ptable"],
             output := [ptableHeader] },
    flag := true, num := 0, arg := "", history := [] }

/-- Claim C3, counterexample: in the paging state reached by a ptable with
zero data rows the invariant holds and the history length exceeds
total_rows minus 45 (as integers), so the claim demands that page-down
performs no move; instead the i32-to-usize conversion of the bound panics,
so page-down neither preserves the state nor any invariant. -/
theorem pagedown_small_table_cex :
    sSmall.app.output.length + sSmall.history.length = sSmall.num.toNat + 1 ∧
    (sSmall.history.length : Int) > sSmall.num - 45 ∧
    step fac0 sSmall .down = .panicked ∧
    step fac0 sSmall .down ≠ .next sSmall := by
  decide

/-- Claim C3 as amended: while scroll is enabled, any page-down or page-up
press that completes without panicking preserves the invariant that output
length plus history length equals total_rows plus one (the header), and
either leaves the state unchanged or moves exactly one line between output
and history; and provided total_rows is at least 45, page-down performs no
move once the history length exceeds total_rows minus 45 (for smaller
tables it panics instead). -/
theorem scroll_ops_preserve_invariant (sys : Facade) (s s' : LoopState)
    (hm : s.app.input_mode = .Editing) (hf : s.flag = true)
    (hinv : s.app.output.length + s.history.length = s.num.toNat + 1) :
    (step sys s .down = .next s' →
      s'.app.output.length + s'.history.length = s'.num.toNat + 1 ∧
      (s' = s ∨ (s'.app.output.length + 1 = s.app.output.length ∧
                 s'.history.length = s.history.length + 1))) ∧
    (step sys s .up = .next s' →
      s'.app.output.length + s'.history.length = s'.num.toNat + 1 ∧
      (s' = s ∨ (s.app.output.length + 1 = s'.app.output.length ∧
                 s.history.length = s'.history.length + 1))) ∧
    (45 ≤ s.num → (s.history.length : Int) > s.num - 45 →
      step sys s .down = .next s) := by
  obtain ⟨⟨inp, mode, msgs, out⟩, fl, num, arg, hist⟩ := s
  simp only at hm hf hinv
  subst hm; subst hf
  refine ⟨?_, ?_, ?_⟩
  · intro h
    simp only [step, pageDown, if_true] at h
    split at h
    · cases h
      exact ⟨hinv, Or.inl rfl⟩
    · split at h
      · cases h
      · split at h
        · split at h
          · cases h
            refine ⟨?_, Or.inr ⟨?_, ?_⟩⟩
            · simp at hinv ⊢
              omega
            · simp
            · simp
          · cases h
        · cases h
          exact ⟨hinv, Or.inl rfl⟩
  · intro h
    simp only [step, pageUp, if_true] at h
    split at h
    · cases h
      exact ⟨hinv, Or.inl rfl⟩
    · rename_i v hv
      have hne : hist ≠ [] := by
        intro he
        subst he
        simp at hv
      split at h
      · cases h
      · cases h
        constructor
        · have h1 : 1 ≤ hist.length := by
            cases hist with
            | nil => exact absurd rfl hne
            | cons a t => simp
          simp only [List.length_dropLast] at *
          simp only [List.length_cons] at *
          omega
        · right
          constructor
          · simp
          · have h1 : 1 ≤ hist.length := by
              cases hist with
              | nil => exact absurd rfl hne
              | cons a t => simp
            simp only [List.length_dropLast]
            omega
  · intro hg hgt
    simp only at hg hgt
    simp only [step, pageDown, if_true]
    split
    · rfl
    · rw [if_neg (by omega), if_neg (by omega)]

/-- A paging state deep into a 45-row table: one row already paged past, so
the page-down bound is exhausted and the next page-down must be a no-op. -/
def sBound : LoopState :=
  { app := { input := "", input_mode := .Editing, messages := ["ptable"],
             output := ptableHeader :: List.replicate 44 "r" },
    flag := true, num := 45, arg := "", history := ["r1"] }

/-- Witness for scroll_ops_preserve_invariant at the concrete state sBound:
its hypotheses hold and the no-move clause applies. -/
theorem scroll_ops_preserve_invariant_witness :
    step fac0 sBound .down = .next sBound :=
  (scroll_ops_preserve_invariant fac0 sBound sBound rfl rfl (by decide)).2.2
    (by decide) (by decide)

/-- Claim C4, counterexample: from the initial state, entering Editing mode,
running ptable (one data row) and then running desc leaves flag still true:
the desc arm of the dispatcher does not reset scroll_enabled, contrary to
the claim that every other command resets it before running its handler. -/
theorem desc_keeps_flag_cex :
    run fac0 initState
        (KeyCode.char 'e' ::
          (keysOf "ptable" ++ [KeyCode.enter] ++ keysOf "desc" ++ [KeyCode.enter])) =
      .next { app := { input := "", input_mode := .Editing,
                       messages := ["ptable", "desc"], output := descOut fac0 },
              flag := true, num := 1, arg := "", history := [] } := by
  decide

/-- Claim C4 as amended: after dispatching ptable, flag is true and num
equals the number of processes whose cmdline is materialized (the data-row
count); but a subsequent desc dispatch leaves flag exactly as it was (the
desc arm never writes flag), so desc after ptable leaves scroll_enabled
true rather than resetting it. -/
theorem ptable_sets_flag_desc_leaves_it (sys : Facade) (s t : LoopState)
    (hms : s.app.input_mode = .Editing) (hmt : t.app.input_mode = .Editing)
    (hs : splitWhitespace s.app.input = ["ptable"])
    (ht : splitWhitespace t.app.input = ["desc"]) :
    step sys s .enter = .next
      { s with app := { input := "", input_mode := .Editing,
                        messages := s.app.messages ++ [s.app.input],
                        output := (printptable sys).1 },
               flag := true, num := (printptable sys).2 } ∧
    (printptable sys).2 = ((sys.processes.filter hasCmdline).length : Int) ∧
    step sys t .enter = .next
      { t with app := { input := "", input_mode := .Editing,
                        messages := t.app.messages ++ [t.app.input],
                        output := descOut sys } } := by
  obtain ⟨⟨inp, mode, msgs, out⟩, fl, num, arg, hist⟩ := s
  obtain ⟨⟨inp2, mode2, msgs2, out2⟩, fl2, num2, arg2, hist2⟩ := t
  simp only at hms hmt hs ht
  subst hms; subst hmt
  refine ⟨?_, ?_, ?_⟩
  · simp [step, dispatch, hs]
  · simp [printptable]
  · simp [step, dispatch, ht]

/-- A state composing the desc command while scroll is still enabled. -/
def sDescScrolled : LoopState :=
  { editingState "desc" with flag := true }

/-- Witness for ptable_sets_flag_desc_leaves_it at concrete states: after
ptable on the one-process fixture, flag is true and num is the data-row
count; dispatching desc from the resulting situation keeps flag true. -/
theorem ptable_sets_flag_desc_leaves_it_witness :
    step fac0 (editingState "ptable") .enter = .next
      { (editingState "ptable") with
        app := { input := "", input_mode := .Editing,
                 messages := ["ptable"], output := (printptable fac0).1 },
        flag := true, num := (printptable fac0).2 } ∧
    (printptable fac0).2 = ((fac0.processes.filter hasCmdline).length : Int) ∧
    step fac0 sDescScrolled .enter = .next
      { sDescScrolled with
        app := { input := "", input_mode := .Editing,
                 messages := ["desc"], output := descOut fac0 } } := by
  have h := ptable_sets_flag_desc_leaves_it fac0 (editingState "ptable")
    sDescScrolled rfl rfl (by decide) (by decide)
  exact h

/-- Claim C6: from a fresh ptable paging state (header plus at least one
data row, empty history) whose page-down guard is satisfied, pressing Down
moves the first data row to history, and pressing Up immediately afterwards
restores exactly the original state. -/
theorem down_then_up_restores (sys : Facade) (s : LoopState) (H r : String)
    (rs : List String)
    (hm : s.app.input_mode = .Editing) (hf : s.flag = true)
    (ho : s.app.output = H :: r :: rs) (hh : s.history = [])
    (hn : s.num = ((r :: rs).length : Int)) (hg : 45 ≤ s.num) :
    step sys s .down = .next
      { s with app := { s.app with output := H :: rs }, history := [r] } ∧
    step sys { s with app := { s.app with output := H :: rs }, history := [r] } .up =
      .next s := by
  obtain ⟨⟨inp, mode, msgs, out⟩, fl, num, arg, hist⟩ := s
  simp only at hm hf ho hh hn hg
  subst hm; subst hf; subst ho; subst hh; subst hn
  constructor
  · simp only [step, pageDown, if_true]
    rw [if_neg (by simp), if_neg (by omega), if_pos (by simp)]
    rfl
  · rfl

/-- A fresh paging state over a 45-row table used to witness claim C6. -/
def sC6 : LoopState :=
  { app := { input := "", input_mode := .Editing, messages := ["ptable"],
             output := "H" :: "r1" :: List.replicate 44 "r" },
    flag := true, num := 45, arg := "", history := [] }

/-- Witness for down_then_up_restores at the concrete 45-row state sC6. -/
theorem down_then_up_restores_witness :
    step fac0 sC6 .down = .next
      { sC6 with app := { sC6.app with output := "H" :: List.replicate 44 "r" },
                 history := ["r1"] } ∧
    step fac0
      { sC6 with app := { sC6.app with output := "H" :: List.replicate 44 "r" },
                 history := ["r1"] } .up = .next sC6 :=
  down_then_up_restores fac0 sC6 "H" "r1" (List.replicate 44 "r")
    rfl rfl rfl rfl (by decide) (by decide)

/-- Claim C9: when the last ptable produced fewer than 45 data rows, the
state it leaves behind has scroll enabled and a non-empty output, and
pressing Down panics: the page-down bound num minus 45 is computed as an
i32 and converted to usize for the length comparison, and the conversion
fails on a negative value. -/
theorem small_ptable_down_panics (sys : Facade) (s s1 : LoopState)
    (hm : s.app.input_mode = .Editing)
    (hp : splitWhitespace s.app.input = ["ptable"])
    (hk : ((sys.processes.filter hasCmdline).length : Int) < 45)
    (hstep : step sys s .enter = .next s1) :
    step sys s1 .down = .panicked := by
  obtain ⟨⟨inp, mode, msgs, out⟩, fl, num, arg, hist⟩ := s
  simp only at hm hp
  subst hm
  simp [step, dispatch, hp] at hstep
  rw [← hstep]
  simp only [step, pageDown, if_true]
  rw [if_neg (by simp [printptable]), if_pos (by simp [printptable]; omega)]

/-- Witness for small_ptable_down_panics: on the one-process fixture, the
ptable dispatch yields a paging state on which Down panics. -/
theorem small_ptable_down_panics_witness :
    step fac0
      { app := { input := "", input_mode := .Editing, messages := ["ptable"],
                 output := (printptable fac0).1 },
        flag := true, num := (printptable fac0).2, arg := "", history := [] }
      .down = .panicked :=
  small_ptable_down_panics fac0 (editingState "ptable")
    { app := { input := "", input_mode := .Editing, messages := ["ptable"],
               output := (printptable fac0).1 },
      flag := true, num := (printptable fac0).2, arg := "", history := [] }
    rfl (by decide) (by decide) (by decide)

/-- Claim C8: dispatching a non-empty line whose first token is not in the
command table writes exactly the single command-not-found line to output and
appends exactly one entry, the submitted line itself, to messages; mode,
flag, num, arg and history are untouched. -/
theorem unknown_command_reported (sys : Facade) (s : LoopState) (c : String)
    (rest : List String)
    (hm : s.app.input_mode = .Editing)
    (hp : splitWhitespace s.app.input = c :: rest)
    (hc : c ∉ commandNames) :
    step sys s .enter = .next
      { s with app := { input := "", input_mode := .Editing,
                        messages := s.app.messages ++ [s.app.input],
                        output := ["command not found"] } } := by
  obtain ⟨⟨inp, mode, msgs, out⟩, fl, num, arg, hist⟩ := s
  simp only at hm hp
  subst hm
  simp only [commandNames, List.mem_cons, List.not_mem_nil, or_false] at hc
  push_neg at hc
  obtain ⟨h1, h2, h3, h4, h5, h6, h7, h8, h9, h10, h11, h12, h13, h14, h15, h16,
    h17, h18⟩ := hc
  simp [step, dispatch, hp, h1, h2, h3, h4, h5, h6, h7, h8, h9, h10, h11, h12,
    h13, h14, h15, h16, h17, h18]

/-- Witness for unknown_command_reported: dispatching the line foo bar. -/
theorem unknown_command_reported_witness :
    step fac0 (editingState "foo bar") .enter = .next
      { (editingState "foo bar") with
        app := { input := "", input_mode := .Editing,
                 messages := ["foo bar"], output := ["command not found"] } } :=
  unknown_command_reported fac0 (editingState "foo bar") "foo" ["bar"]
    rfl (by decide) (by decide)

/-- Claim C7, counterexample: typing h, e, l, p and Enter from the fresh
Editing state produces the fixed help text, but that text has 19 lines, not
the 16 the claim states. -/
theorem help_sixteen_lines_cex :
    run fac0 (editingState "") [.char 'h', .char 'e', .char 'l', .char 'p', .enter] =
      .next { app := { input := "", input_mode := .Editing, messages := ["help"],
                       output := helpLines },
              flag := false, num := 0, arg := "", history := [] } ∧
    helpLines.length = 19 ∧ ¬ helpLines.length = 16 := by
  decide

/-- Claim C7 as amended: typing the characters h, e, l, p in Editing mode
(with an empty input box) followed by Enter sets output to the fixed help
text, which has 19 lines, and appends the string help to messages. -/
theorem typing_help_scenario (sys : Facade) (s : LoopState)
    (hm : s.app.input_mode = .Editing) (hi : s.app.input = "") :
    run sys s [.char 'h', .char 'e', .char 'l', .char 'p', .enter] = .next
      { s with app := { input := "", input_mode := .Editing,
                        messages := s.app.messages ++ ["help"],
                        output := helpLines } } ∧
    helpLines.length = 19 := by
  obtain ⟨⟨inp, mode, msgs, out⟩, fl, num, arg, hist⟩ := s
  simp only at hm hi
  subst hm; subst hi
  exact ⟨rfl, rfl⟩

/-- Witness for typing_help_scenario at the fresh Editing state. -/
theorem typing_help_scenario_witness :
    run fac0 (editingState "") [.char 'h', .char 'e', .char 'l', .char 'p', .enter] =
      .next { (editingState "") with
              app := { input := "", input_mode := .Editing,
                       messages := [] ++ ["help"], output := helpLines } } ∧
    helpLines.length = 19 :=
  typing_help_scenario fac0 (editingState "") rfl rfl

set_option maxRecDepth 40000 in
/-- Claim C5, counterexample: on a facade with one disk of exactly 2 to the
20 bytes (nothing available), dispatching the literal line df m reports the
raw byte count 1048576: the first character of the argument token m is
stripped, leaving the empty unit selector, so nothing is divided by 2 to
the 20 (the line the claim predicts, with 1 in the space columns, differs). -/
theorem df_m_unscaled_cex :
    step fac0 (editingState "df m") .enter = .next
      { app := { input := "", input_mode := .Editing, messages := ["df m"],
                 output := [diskHeader, diskLine "d" "/" "ext4" 1048576 0 1048576] },
        flag := false, num := 0, arg := "", history := [] } ∧
    diskLine "d" "/" "ext4" 1048576 0 1048576 ≠ diskLine "d" "/" "ext4" 1 0 1 := by
  decide

/-- Claim C5 as amended: the df argument token has its first character
stripped and the remainder selects the unit, so a two-token df whose
argument strips to m divides total and available space by 2 to the 20, one
that strips to k divides them by 2 to the 10, and df with no argument and
an empty stored arg reports raw byte counts; the literal line df m strips
to the empty selector and therefore reports raw byte counts as well. -/
theorem df_unit_scaling (sys : Facade) (s : LoopState) (x : String)
    (hm : s.app.input_mode = .Editing) :
    (splitWhitespace s.app.input = ["df", x] → strDrop1 x = "m" →
      step sys s .enter = .next
        { s with app := { input := "", input_mode := .Editing,
                          messages := s.app.messages ++ [s.app.input],
                          output := diskHeader :: sys.disks.map (fun d =>
                            diskLine d.name d.mountPoint d.fileSystem
                              (d.totalSpace / 2 ^ 20) (d.availableSpace / 2 ^ 20)
                              (d.totalSpace / 2 ^ 20 - d.availableSpace / 2 ^ 20)) },
                 flag := false, arg := "m" }) ∧
    (splitWhitespace s.app.input = ["df", x] → strDrop1 x = "k" →
      step sys s .enter = .next
        { s with app := { input := "", input_mode := .Editing,
                          messages := s.app.messages ++ [s.app.input],
                          output := diskHeader :: sys.disks.map (fun d =>
                            diskLine d.name d.mountPoint d.fileSystem
                              (d.totalSpace / 2 ^ 10) (d.availableSpace / 2 ^ 10)
                              (d.totalSpace / 2 ^ 10 - d.availableSpace / 2 ^ 10)) },
                 flag := false, arg := "k" }) ∧
    (splitWhitespace s.app.input = ["df"] → s.arg = "" →
      step sys s .enter = .next
        { s with app := { input := "", input_mode := .Editing,
                          messages := s.app.messages ++ [s.app.input],
                          output := diskHeader :: sys.disks.map (fun d =>
                            diskLine d.name d.mountPoint d.fileSystem
                              d.totalSpace d.availableSpace
                              (d.totalSpace - d.availableSpace)) },
                 flag := false, arg := "" }) ∧
    (splitWhitespace s.app.input = ["df", "m"] →
      step sys s .enter = .next
        { s with app := { input := "", input_mode := .Editing,
                          messages := s.app.messages ++ [s.app.input],
                          output := diskHeader :: sys.disks.map (fun d =>
                            diskLine d.name d.mountPoint d.fileSystem
                              d.totalSpace d.availableSpace
                              (d.totalSpace - d.availableSpace)) },
                 flag := false, arg := "" }) := by
  obtain ⟨⟨inp, mode, msgs, out⟩, fl, num, arg, hist⟩ := s
  simp only at hm ⊢
  subst hm
  have hdm : strDrop1 "m" = "" := by decide
  refine ⟨?_, ?_, ?_, ?_⟩
  · intro hp hx
    simp [step, dispatch, hp, hx, get_disks_information]
  · intro hp hx
    simp [step, dispatch, hp, hx, get_disks_information]
  · intro hp ha
    subst ha
    simp [step, dispatch, hp, get_disks_information, Nat.div_one]
  · intro hp
    simp [step, dispatch, hp, hdm, get_disks_information, Nat.div_one]

/-- Witness for df_unit_scaling: the line df xm on the MiB-disk fixture. -/
theorem df_unit_scaling_witness :
    step fac0 (editingState "df xm") .enter = .next
      { (editingState "df xm") with
        app := { input := "", input_mode := .Editing,
                 messages := [] ++ ["df xm"],
                 output := diskHeader :: fac0.disks.map (fun d =>
                   diskLine d.name d.mountPoint d.fileSystem
                     (d.totalSpace / 2 ^ 20) (d.availableSpace / 2 ^ 20)
                     (d.totalSpace / 2 ^ 20 - d.availableSpace / 2 ^ 20)) },
        flag := false, arg := "m" } :=
  (df_unit_scaling fac0 (editingState "df xm") "xm" rfl).1 (by decide) (by decide)

/-- Claim C10: arg is one shared variable: a one-token df, hddtemp or
gputemp dispatch passes the currently stored arg to its handler and leaves
it unchanged; a two-token dispatch of any of the three overwrites arg with
the argument token minus its first character and passes that; a df line
with three tokens also leaves arg unchanged. The no-argument behavior of
each of the three commands therefore depends on the argument most recently
supplied to any of them (initially the empty string). -/
theorem arg_shared_across_commands (sys : Facade) (s : LoopState) (x : String)
    (hm : s.app.input_mode = .Editing) :
    (splitWhitespace s.app.input = ["df"] →
      step sys s .enter = .next
        { s with app := { input := "", input_mode := .Editing,
                          messages := s.app.messages ++ [s.app.input],
                          output := get_disks_information sys s.arg },
                 flag := false }) ∧
    (splitWhitespace s.app.input = ["gputemp"] →
      step sys s .enter = .next
        { s with app := { input := "", input_mode := .Editing,
                          messages := s.app.messages ++ [s.app.input],
                          output := get_gputemp sys s.arg },
                 flag := false }) ∧
    (∀ out1, splitWhitespace s.app.input = ["hddtemp"] →
      get_hddtemp sys s.arg = some out1 →
      step sys s .enter = .next
        { s with app := { input := "", input_mode := .Editing,
                          messages := s.app.messages ++ [s.app.input],
                          output := out1 },
                 flag := false }) ∧
    (splitWhitespace s.app.input = ["df", x] →
      step sys s .enter = .next
        { s with app := { input := "", input_mode := .Editing,
                          messages := s.app.messages ++ [s.app.input],
                          output := get_disks_information sys (strDrop1 x) },
                 flag := false, arg := strDrop1 x }) ∧
    (splitWhitespace s.app.input = ["gputemp", x] →
      step sys s .enter = .next
        { s with app := { input := "", input_mode := .Editing,
                          messages := s.app.messages ++ [s.app.input],
                          output := get_gputemp sys (strDrop1 x) },
                 flag := false, arg := strDrop1 x }) ∧
    (∀ out2, splitWhitespace s.app.input = ["hddtemp", x] →
      get_hddtemp sys (strDrop1 x) = some out2 →
      step sys s .enter = .next
        { s with app := { input := "", input_mode := .Editing,
                          messages := s.app.messages ++ [s.app.input],
                          output := out2 },
                 flag := false, arg := strDrop1 x }) ∧
    (∀ y z, splitWhitespace s.app.input = ["df", y, z] →
      step sys s .enter = .next
        { s with app := { input := "", input_mode := .Editing,
                          messages := s.app.messages ++ [s.app.input],
                          output := get_disks_information sys s.arg },
                 flag := false }) := by
  obtain ⟨⟨inp, mode, msgs, out⟩, fl, num, arg, hist⟩ := s
  simp only at hm ⊢
  subst hm
  refine ⟨?_, ?_, ?_, ?_, ?_, ?_, ?_⟩
  · intro hp
    simp [step, dispatch, hp]
  · intro hp
    simp [step, dispatch, hp]
  · intro out1 hp hsome
    simp [step, dispatch, hp, hsome]
  · intro hp
    simp [step, dispatch, hp]
  · intro hp
    simp [step, dispatch, hp]
  · intro out2 hp hsome
    simp [step, dispatch, hp, hsome]
  · intro y z hp
    simp [step, dispatch, hp]

/-- Witness for arg_shared_across_commands: a two-token gputemp line stores
the stripped argument. -/
theorem arg_shared_across_commands_witness :
    step fac0 (editingState "gputemp xmax") .enter = .next
      { (editingState "gputemp xmax") with
        app := { input := "", input_mode := .Editing,
                 messages := [] ++ ["gputemp xmax"],
                 output := get_gputemp fac0 (strDrop1 "xmax") },
        flag := false, arg := strDrop1 "xmax" } :=
  (arg_shared_across_commands fac0 (editingState "gputemp xmax") "xmax"
    rfl).2.2.2.2.1 (by decide)

end Proclynx
